import Mathlib

/-!
Verification of `jules-scratch/verification/verify_transcription.py`.

The script is a linear Playwright automation:

  def run(playwright):
      browser = playwright.chromium.launch()
      page = browser.new_page()
      page.goto("http://localhost:5173/")
      page.click("button")
      page.wait_for_selector("textarea:not(:empty)")
      page.screenshot(path="jules-scratch/verification/verification.png")
      browser.close()

  with sync_playwright() as playwright:
      run(playwright)

We embed it shallowly: the outcome of each external browser-automation call
is determined by an abstract `World`, the script threads an explicit
filesystem, and executing the script yields the trace of invoked operations,
the error (if any) of the first failing call, the resulting filesystem and
the process exit status.
-/

namespace VerifyTranscription

/-- The hard-coded navigation URL passed to `page.goto`. -/
def targetURL : String := "http://localhost:5173/"

/-- The hard-coded selector passed to `page.click`. -/
def clickSelector : String := "button"

/-- The hard-coded selector passed to `page.wait_for_selector`. -/
def waitSelector : String := "textarea:not(:empty)"

/-- The hard-coded output path passed to `page.screenshot`. -/
def screenshotPath : String := "jules-scratch/verification/verification.png"

/-- The errors of the linear pipeline, one per fallible external call. -/
inductive PwError where
  | LaunchError
  | PageCreationError
  | NavigationError
  | ElementNotFoundError
  | ElementNotInteractableError
  | TimeoutError
  | CaptureError
deriving DecidableEq, Repr

/-- The external calls the script can issue.  The first seven are the calls
issued by `run` itself; `stopPlaywright` is the teardown performed by the
exit handler of the `with sync_playwright()` block. -/
inductive Ev where
  | launch
  | newPage
  | goto
  | click
  | waitForSelector
  | screenshot
  | closeBrowser
  | stopPlaywright
deriving DecidableEq, Repr

/-- The literal arguments the script passes to each external call. -/
def argsOf : Ev → List String
  | .launch => []
  | .newPage => []
  | .goto => [targetURL]
  | .click => [clickSelector]
  | .waitForSelector => [waitSelector]
  | .screenshot => [screenshotPath]
  | .closeBrowser => []
  | .stopPlaywright => []

/-- Modelled from the spec: the environment that decides the outcome of each
external automation call (the automation library itself is not part of this
repository).  `textareas t` is the list of the contents of the page's
textarea elements `t` milliseconds after the click; `timeoutMs` is the wait
timeout of the library. -/
structure World where
  launchOk : Bool
  newPageOk : Bool
  serverReachable : Bool
  hasButton : Bool
  buttonClickable : Bool
  textareas : Nat → List String
  timeoutMs : Nat
  screenshotWritable : Bool

/-- Modelled from the spec: the CSS selector `textarea:not(:empty)` matches a
textarea element whose content is not empty. -/
def matchesWaitSelector (tas : List String) : Bool :=
  tas.any (fun s => !(s == ""))

/-- Modelled from the spec: `page.wait_for_selector` polls until the selector
matches; it returns the first instant before the timeout at which a
non-empty textarea is present, or `none` when the condition is never met
within the timeout window. -/
def waitTime (w : World) : Option Nat :=
  (List.range w.timeoutMs).find? (fun t => matchesWaitSelector (w.textareas t))

/-- The filesystem visible to the script: an association of paths to file
contents (a screenshot is modelled by the page state it depicts). -/
abbrev FS : Type := List (String × List String)

/-- Write a file, replacing any existing file at the same path. -/
def setFile (fs : FS) (p : String) (v : List String) : FS :=
  (p, v) :: fs.filter (fun e => !(e.1 == p))

/-- Look up the content of the file at path `p`. -/
def lookupFS (fs : FS) (p : String) : Option (List String) :=
  (fs.find? (fun e => e.1 == p)).map (fun e => e.2)

/-- Result of executing the body `run`: the calls it issued in order, the
error of the first failing call (if any), and the filesystem afterwards. -/
structure RunResult where
  trace : List Ev
  err : Option PwError
  fs : FS

/-- Shallow embedding of the Python function `run`: the six automation calls
and the final `browser.close()` are issued strictly in order; the first
failing call raises, so no later call is issued and the script adds no
handler.  Failure outcomes of the external calls follow the spec taxonomy:
launch → LaunchError, new_page → PageCreationError, goto → NavigationError,
click → ElementNotFoundError / ElementNotInteractableError,
wait_for_selector → TimeoutError, screenshot → CaptureError. -/
def run (w : World) (fs : FS) : RunResult :=
  if !w.launchOk then
    ⟨[.launch], some .LaunchError, fs⟩
  else if !w.newPageOk then
    ⟨[.launch, .newPage], some .PageCreationError, fs⟩
  else if !w.serverReachable then
    ⟨[.launch, .newPage, .goto], some .NavigationError, fs⟩
  else if !w.hasButton then
    ⟨[.launch, .newPage, .goto, .click], some .ElementNotFoundError, fs⟩
  else if !w.buttonClickable then
    ⟨[.launch, .newPage, .goto, .click], some .ElementNotInteractableError, fs⟩
  else
    match waitTime w with
    | none =>
      ⟨[.launch, .newPage, .goto, .click, .waitForSelector], some .TimeoutError, fs⟩
    | some t =>
      if !w.screenshotWritable then
        ⟨[.launch, .newPage, .goto, .click, .waitForSelector, .screenshot],
          some .CaptureError, fs⟩
      else
        ⟨[.launch, .newPage, .goto, .click, .waitForSelector, .screenshot, .closeBrowser],
          none, setFile fs screenshotPath (w.textareas t)⟩

/-- Outcome of the whole process: every call issued (including teardown),
the exit status, and the final filesystem. -/
structure ScriptResult where
  calls : List Ev
  exitCode : Nat
  fs : FS

/-- Shallow embedding of the whole script, `with sync_playwright() as
playwright: run(playwright)`.  The script reads neither command-line
arguments nor environment variables, so it ignores `cli` and `envv`.  The
with-statement exit handler runs on every path, raising or not, and stops
the Playwright driver; an unhandled error makes the process exit with
status 1, otherwise it exits with status 0. -/
def scriptMain (cli : List String) (envv : List (String × String))
    (w : World) (fs : FS) : ScriptResult :=
  let r := run w fs
  ⟨r.trace ++ [.stopPlaywright], if r.err.isSome then 1 else 0, r.fs⟩

/-- Modelled from the spec: the browser-session resource is released when
either the script's own `browser.close()` ran or the Playwright driver was
stopped by the with-statement teardown (which terminates the driver process
and the browsers it spawned). -/
def sessionReleased (r : ScriptResult) : Prop :=
  Ev.closeBrowser ∈ r.calls ∨ Ev.stopPlaywright ∈ r.calls

/-- The full sequence of calls `run` issues on the success path. -/
def fullRunSeq : List Ev :=
  [.launch, .newPage, .goto, .click, .waitForSelector, .screenshot, .closeBrowser]

/-- All seven pipeline steps succeed against this world. -/
def healthy (w : World) : Bool :=
  w.launchOk && w.newPageOk && w.serverReachable && w.hasButton &&
    w.buttonClickable && (waitTime w).isSome && w.screenshotWritable

/-- A world in which every step succeeds: the textarea is populated
immediately after the click. -/
def okWorld : World :=
  { launchOk := true, newPageOk := true, serverReachable := true,
    hasButton := true, buttonClickable := true,
    textareas := fun _ => ["transcribed text"], timeoutMs := 5,
    screenshotWritable := true }

/-- A world in which the development server is not reachable. -/
def downWorld : World :=
  { launchOk := true, newPageOk := true, serverReachable := false,
    hasButton := true, buttonClickable := true,
    textareas := fun _ => ["transcribed text"], timeoutMs := 5,
    screenshotWritable := true }

/-- A world in which the page served at the target URL has no button. -/
def noButtonWorld : World :=
  { launchOk := true, newPageOk := true, serverReachable := true,
    hasButton := false, buttonClickable := false,
    textareas := fun _ => ["transcribed text"], timeoutMs := 5,
    screenshotWritable := true }

/-- A world in which the textarea never receives content, so the wait
times out. -/
def timeoutWorld : World :=
  { launchOk := true, newPageOk := true, serverReachable := true,
    hasButton := true, buttonClickable := true,
    textareas := fun _ => [""], timeoutMs := 5,
    screenshotWritable := true }

/-! ### Helper lemmas -/

theorem lookupFS_setFile_same (fs : FS) (p : String) (v : List String) :
    lookupFS (setFile fs p v) p = some v := by
  unfold lookupFS setFile
  rw [List.find?_cons_of_pos _ (by simp)]
  simp

theorem find?_filter_ne (fs : FS) (p q : String) (h : q ≠ p) :
    List.find? (fun e => e.1 == q) (fs.filter (fun e => !(e.1 == p))) =
      List.find? (fun e => e.1 == q) fs := by
  induction fs with
  | nil => rfl
  | cons a t ih =>
    by_cases ha : a.1 = p
    · have hpq : ((p == q) : Bool) = false := by
        rw [beq_eq_false_iff_ne]
        exact fun he => h he.symm
      simp [List.filter_cons, List.find?, ha, hpq, ih]
    · by_cases hq : a.1 = q
      · simp [List.filter_cons, List.find?, ha, hq, h, ih]
      · have h2 : ((a.1 == q) : Bool) = false := beq_eq_false_iff_ne.mpr hq
        simp [List.filter_cons, List.find?, ha, h2, ih]

theorem lookupFS_setFile_other (fs : FS) (p q : String) (v : List String)
    (h : q ≠ p) : lookupFS (setFile fs p v) q = lookupFS fs q := by
  unfold lookupFS setFile
  rw [List.find?_cons_of_neg, find?_filter_ne fs p q h]
  simp
  exact fun hpq => h hpq.symm

theorem run_healthy (w : World) (fs : FS) (h : healthy w = true) :
    ∃ t, waitTime w = some t ∧
      run w fs = ⟨fullRunSeq, none, setFile fs screenshotPath (w.textareas t)⟩ := by
  unfold healthy at h
  simp only [Bool.and_eq_true] at h
  obtain ⟨⟨⟨⟨⟨⟨h1, h2⟩, h3⟩, h4⟩, h5⟩, h6⟩, h7⟩ := h
  obtain ⟨t, ht⟩ := Option.isSome_iff_exists.mp h6
  refine ⟨t, ht, ?_⟩
  simp [run, h1, h2, h3, h4, h5, h7, ht, fullRunSeq]

theorem run_fs_keeps_or_writes (w : World) (fs : FS) :
    (run w fs).fs = fs ∨
      ∃ t, waitTime w = some t ∧
        (run w fs).fs = setFile fs screenshotPath (w.textareas t) := by
  unfold run
  split
  · exact Or.inl rfl
  split
  · exact Or.inl rfl
  split
  · exact Or.inl rfl
  split
  · exact Or.inl rfl
  split
  · exact Or.inl rfl
  split
  · exact Or.inl rfl
  split
  · exact Or.inl rfl
  · exact Or.inr ⟨_, by assumption, rfl⟩

/-- A world in which the textarea never holds any content at all. -/
def emptyPageWorld : World :=
  { launchOk := true, newPageOk := true, serverReachable := true,
    hasButton := true, buttonClickable := true,
    textareas := fun _ => [], timeoutMs := 5,
    screenshotWritable := true }

/-- A filesystem holding one unrelated file, used to observe frame effects. -/
def preFS : FS := [("jules-scratch/other.txt", ["keep"])]

theorem ne_empty_iff_one_le_length (s : String) :
    (!(s == "")) = true ↔ 1 ≤ s.length := by
  rw [Bool.not_eq_true', beq_eq_false_iff_ne]
  constructor
  · intro hs
    rcases hd : s.data with _ | ⟨c, cs⟩
    · exact absurd (String.ext_iff.mpr (by rw [hd])) hs
    · have hlen : s.length = cs.length + 1 := by
        show s.data.length = cs.length + 1
        rw [hd]
        rfl
      omega
  · intro hlen he
    rw [he] at hlen
    exact absurd hlen (by decide)

theorem run_err_none_trace (w : World) (fs : FS) :
    (run w fs).err = none → (run w fs).trace = fullRunSeq := by
  unfold run fullRunSeq
  split
  · intro h; simp at h
  split
  · intro h; simp at h
  split
  · intro h; simp at h
  split
  · intro h; simp at h
  split
  · intro h; simp at h
  split
  · intro h; simp at h
  split
  · intro h; simp at h
  · intro _; rfl

theorem run_trace_shape (w : World) (fs : FS) :
    ∃ k, (run w fs).trace = fullRunSeq.take k := by
  unfold run fullRunSeq
  split
  · exact ⟨1, rfl⟩
  split
  · exact ⟨2, rfl⟩
  split
  · exact ⟨3, rfl⟩
  split
  · exact ⟨4, rfl⟩
  split
  · exact ⟨4, rfl⟩
  split
  · exact ⟨5, rfl⟩
  split
  · exact ⟨6, rfl⟩
  · exact ⟨7, rfl⟩

theorem scriptMain_calls_nodup (cli : List String)
    (envv : List (String × String)) (w : World) (fs : FS) :
    (scriptMain cli envv w fs).calls.Nodup := by
  obtain ⟨k, hk⟩ := run_trace_shape w fs
  show ((run w fs).trace ++ [Ev.stopPlaywright]).Nodup
  have hsub : List.Sublist ((run w fs).trace ++ [Ev.stopPlaywright])
      (fullRunSeq ++ [Ev.stopPlaywright]) := by
    rw [hk]
    exact (List.take_sublist k fullRunSeq).append (List.Sublist.refl _)
  have hnd : (fullRunSeq ++ [Ev.stopPlaywright]).Nodup := by decide
  exact hnd.sublist hsub

/-! ### Claims -/

/-- C1: releasing the browser session (page handle and underlying process
resources) happens on every execution of the script: the with-statement
teardown stops the Playwright driver whether or not `run` raised, so the
release is attempted on every failure path, not only on full success. -/
theorem c1_session_release_on_every_path (cli : List String)
    (envv : List (String × String)) (w : World) (fs : FS) :
    sessionReleased (scriptMain cli envv w fs) ∧
    ((run w fs).err.isSome = true → sessionReleased (scriptMain cli envv w fs)) := by
  have hrel : sessionReleased (scriptMain cli envv w fs) :=
    Or.inr (by simp [scriptMain])
  exact ⟨hrel, fun _ => hrel⟩

/-- Witness for C1: the release also happens in a concrete failing run
(server unreachable). -/
theorem c1_witness :
    sessionReleased (scriptMain [] [] downWorld []) ∧
      sessionReleased (scriptMain [] [] downWorld []) :=
  ⟨(c1_session_release_on_every_path [] [] downWorld []).1,
   (c1_session_release_on_every_path [] [] downWorld []).2 (by decide)⟩

/-- C2: `run` issues exactly the seven calls launch, new page, goto, click,
wait for selector, screenshot, close, in that fixed order when everything
succeeds, and in every run its trace is a prefix of that fixed sequence: no
call starts before its predecessor completed and none is skipped or
reordered on the success path. -/
theorem c2_seven_steps_in_fixed_order (w : World) (fs : FS) :
    ((run w fs).err = none → (run w fs).trace = fullRunSeq) ∧
    ∃ k, (run w fs).trace = fullRunSeq.take k :=
  ⟨run_err_none_trace w fs, run_trace_shape w fs⟩

/-- Witness for C2 at a fully healthy concrete world. -/
theorem c2_witness :
    (run okWorld []).trace = fullRunSeq ∧
      ∃ k, (run okWorld []).trace = fullRunSeq.take k :=
  ⟨(c2_seven_steps_in_fixed_order okWorld []).1 (by decide),
   (c2_seven_steps_in_fixed_order okWorld []).2⟩

/-- C3: against a correctly serving target (all seven steps succeed) the
script writes the screenshot at the fixed output path and the process exits
with status 0. -/
theorem c3_success_screenshot_and_exit_zero (cli : List String)
    (envv : List (String × String)) (w : World) (fs : FS)
    (h : healthy w = true) :
    (scriptMain cli envv w fs).exitCode = 0 ∧
    ∃ t, waitTime w = some t ∧
      lookupFS (scriptMain cli envv w fs).fs screenshotPath =
        some (w.textareas t) := by
  obtain ⟨t, ht, hr⟩ := run_healthy w fs h
  refine ⟨?_, t, ht, ?_⟩
  · simp [scriptMain, hr]
  · simp [scriptMain, hr, lookupFS_setFile_same]

/-- Witness for C3 at a fully healthy concrete world. -/
theorem c3_witness :
    (scriptMain [] [] okWorld []).exitCode = 0 ∧
    ∃ t, waitTime okWorld = some t ∧
      lookupFS (scriptMain [] [] okWorld []).fs screenshotPath =
        some (okWorld.textareas t) :=
  c3_success_screenshot_and_exit_zero [] [] okWorld [] (by decide)

/-- C4: when any step raises, the error is not recovered or retried — the
script never issues a call twice, and the process exits with a non-zero
status (1). -/
theorem c4_failure_fatal_no_retry (cli : List String)
    (envv : List (String × String)) (w : World) (fs : FS) :
    ((run w fs).err.isSome = true → (scriptMain cli envv w fs).exitCode = 1) ∧
    (scriptMain cli envv w fs).calls.Nodup := by
  constructor
  · intro h
    simp [scriptMain, h]
  · exact scriptMain_calls_nodup cli envv w fs

/-- Witness for C4 at a concrete failing world (server unreachable). -/
theorem c4_witness :
    (scriptMain [] [] downWorld []).exitCode = 1 ∧
      (scriptMain [] [] downWorld []).calls.Nodup :=
  ⟨(c4_failure_fatal_no_retry [] [] downWorld []).1 (by decide),
   (c4_failure_fatal_no_retry [] [] downWorld []).2⟩

/-- C5: when the page reached at click time has no element matching the
button selector, the run fails with the element-not-found error, the process
exits non-zero, and the wait-for-selector call is never issued. -/
theorem c5_missing_button_stops_before_wait (cli : List String)
    (envv : List (String × String)) (w : World) (fs : FS)
    (h1 : w.launchOk = true) (h2 : w.newPageOk = true)
    (h3 : w.serverReachable = true) (h4 : w.hasButton = false) :
    (run w fs).err = some PwError.ElementNotFoundError ∧
    (scriptMain cli envv w fs).exitCode = 1 ∧
    Ev.waitForSelector ∉ (run w fs).trace := by
  have hr : run w fs =
      ⟨[.launch, .newPage, .goto, .click], some .ElementNotFoundError, fs⟩ := by
    simp [run, h1, h2, h3, h4]
  refine ⟨by rw [hr], by simp [scriptMain, hr], by rw [hr]; simp⟩

/-- Witness for C5 at a concrete world whose page has no button. -/
theorem c5_witness :
    (run noButtonWorld []).err = some PwError.ElementNotFoundError ∧
    (scriptMain [] [] noButtonWorld []).exitCode = 1 ∧
    Ev.waitForSelector ∉ (run noButtonWorld []).trace :=
  c5_missing_button_stops_before_wait [] [] noButtonWorld [] rfl rfl rfl rfl

/-- C6: when the wait step times out — the non-empty-textarea condition
holds at no instant within the timeout window — the run fails with the
timeout error, the process exits non-zero, the screenshot call is never
issued, and the filesystem is left untouched, so no screenshot reflecting a
completed state is produced by that run. -/
theorem c6_timeout_no_screenshot (cli : List String)
    (envv : List (String × String)) (w : World) (fs : FS)
    (h1 : w.launchOk = true) (h2 : w.newPageOk = true)
    (h3 : w.serverReachable = true) (h4 : w.hasButton = true)
    (h5 : w.buttonClickable = true)
    (h6 : ∀ t, t < w.timeoutMs → matchesWaitSelector (w.textareas t) = false) :
    (run w fs).err = some PwError.TimeoutError ∧
    (scriptMain cli envv w fs).exitCode = 1 ∧
    Ev.screenshot ∉ (run w fs).trace ∧
    (run w fs).fs = fs := by
  have hwt : waitTime w = none := by
    unfold waitTime
    rw [List.find?_eq_none]
    intro t htmem
    rw [List.mem_range] at htmem
    simp [h6 t htmem]
  have hr : run w fs =
      ⟨[.launch, .newPage, .goto, .click, .waitForSelector],
        some .TimeoutError, fs⟩ := by
    simp [run, h1, h2, h3, h4, h5, hwt]
  refine ⟨by rw [hr], by simp [scriptMain, hr], by rw [hr]; simp, by rw [hr]⟩

/-- Witness for C6 at a concrete world whose textarea stays empty. -/
theorem c6_witness :
    (run timeoutWorld []).err = some PwError.TimeoutError ∧
    (scriptMain [] [] timeoutWorld []).exitCode = 1 ∧
    Ev.screenshot ∉ (run timeoutWorld []).trace ∧
    (run timeoutWorld []).fs = [] :=
  c6_timeout_no_screenshot [] [] timeoutWorld [] rfl rfl rfl rfl rfl
    (fun t ht => rfl)

/-- C7: the fixed screenshot path is the script's only durable filesystem
output: across two successive runs every other path is untouched, and when
both runs succeed the second run's screenshot overwrites the first, leaving
the content of the second run at the single fixed path. -/
theorem c7_screenshot_path_sole_output (cli1 cli2 : List String)
    (envv1 envv2 : List (String × String)) (w1 w2 : World) (fs : FS) :
    (∀ p, p ≠ screenshotPath →
      lookupFS (scriptMain cli2 envv2 w2 (scriptMain cli1 envv1 w1 fs).fs).fs p =
        lookupFS fs p) ∧
    (healthy w1 = true → healthy w2 = true →
      ∃ t, waitTime w2 = some t ∧
        lookupFS (scriptMain cli2 envv2 w2 (scriptMain cli1 envv1 w1 fs).fs).fs
          screenshotPath = some (w2.textareas t)) := by
  have hfs : ∀ (cli : List String) (envv : List (String × String)) (w : World)
      (g : FS), (scriptMain cli envv w g).fs = (run w g).fs :=
    fun _ _ _ _ => rfl
  constructor
  · intro p hp
    simp only [hfs]
    have hstep : ∀ (w : World) (g : FS),
        lookupFS (run w g).fs p = lookupFS g p := by
      intro w g
      rcases run_fs_keeps_or_writes w g with hk | ⟨t, _, hw⟩
      · rw [hk]
      · rw [hw, lookupFS_setFile_other _ _ _ _ hp]
    rw [hstep, hstep]
  · intro hh1 hh2
    obtain ⟨t2, ht2, hr2⟩ :=
      run_healthy w2 (scriptMain cli1 envv1 w1 fs).fs hh2
    refine ⟨t2, ht2, ?_⟩
    rw [hfs, hr2]
    exact lookupFS_setFile_same _ _ _

/-- Witness for C7: two healthy runs starting from a filesystem holding one
unrelated file leave that file alone and leave the second screenshot at the
fixed path. -/
theorem c7_witness :
    lookupFS (scriptMain [] [] okWorld (scriptMain [] [] okWorld preFS).fs).fs
        "jules-scratch/other.txt" = lookupFS preFS "jules-scratch/other.txt" ∧
    ∃ t, waitTime okWorld = some t ∧
      lookupFS (scriptMain [] [] okWorld (scriptMain [] [] okWorld preFS).fs).fs
        screenshotPath = some (okWorld.textareas t) :=
  ⟨(c7_screenshot_path_sole_output [] [] [] [] okWorld okWorld preFS).1
      "jules-scratch/other.txt" (by decide),
   (c7_screenshot_path_sole_output [] [] [] [] okWorld okWorld preFS).2
      (by decide) (by decide)⟩

/-- C8: the wait step succeeds exactly when, at some instant within the
timeout window, the page holds a textarea with at least one character; the
selector matches precisely the pages with a non-empty textarea, and a page
whose textareas never receive any character never satisfies the wait. -/
theorem c8_wait_selector_semantics (w : World) :
    ((waitTime w).isSome = true ↔
      ∃ t, t < w.timeoutMs ∧ matchesWaitSelector (w.textareas t) = true) ∧
    ((∀ t, ∀ s ∈ w.textareas t, s.length = 0) → waitTime w = none) ∧
    (∀ tas : List String,
      matchesWaitSelector tas = true ↔ ∃ s ∈ tas, 1 ≤ s.length) := by
  refine ⟨?_, ?_, ?_⟩
  · unfold waitTime
    rw [List.find?_isSome]
    constructor
    · rintro ⟨t, htmem, hp⟩
      exact ⟨t, List.mem_range.mp htmem, hp⟩
    · rintro ⟨t, hlt, hp⟩
      exact ⟨t, List.mem_range.mpr hlt, hp⟩
  · intro hall
    unfold waitTime
    rw [List.find?_eq_none]
    intro t _ hmt
    unfold matchesWaitSelector at hmt
    rw [List.any_eq_true] at hmt
    obtain ⟨s, hs, hone⟩ := hmt
    have hlen := (ne_empty_iff_one_le_length s).mp hone
    have h0 := hall t s hs
    omega
  · intro tas
    unfold matchesWaitSelector
    rw [List.any_eq_true]
    constructor
    · rintro ⟨s, hs, hp⟩
      exact ⟨s, hs, (ne_empty_iff_one_le_length s).mp hp⟩
    · rintro ⟨s, hs, hp⟩
      exact ⟨s, hs, (ne_empty_iff_one_le_length s).mpr hp⟩

/-- Witness for C8: the wait succeeds on a world whose textarea holds text,
never succeeds on a world whose textareas hold nothing, and the selector
matches a one-element page with text. -/
theorem c8_witness :
    (waitTime okWorld).isSome = true ∧ waitTime emptyPageWorld = none ∧
      matchesWaitSelector ["transcribed text"] = true :=
  ⟨(c8_wait_selector_semantics okWorld).1.mpr ⟨0, by decide, by decide⟩,
   (c8_wait_selector_semantics emptyPageWorld).2.1
     (fun t s hs => absurd hs (List.not_mem_nil s)),
   ((c8_wait_selector_semantics okWorld).2.2 ["transcribed text"]).mpr
     ⟨"transcribed text", by decide, by decide⟩⟩

/-- C9: the script takes no input: it ignores command-line arguments and
environment variables entirely, and the navigation URL, click selector,
wait selector and screenshot path it passes to the automation calls are the
hard-coded literals of the source. -/
theorem c9_no_configuration_surface (cli1 cli2 : List String)
    (envv1 envv2 : List (String × String)) (w : World) (fs : FS) :
    scriptMain cli1 envv1 w fs = scriptMain cli2 envv2 w fs ∧
    argsOf Ev.goto = ["http://localhost:5173/"] ∧
    argsOf Ev.click = ["button"] ∧
    argsOf Ev.waitForSelector = ["textarea:not(:empty)"] ∧
    argsOf Ev.screenshot = ["jules-scratch/verification/verification.png"] :=
  ⟨rfl, rfl, rfl, rfl, rfl⟩

/-- C10: `run` issues its own `browser.close()` exactly when all preceding
calls completed without raising; after any failure the script itself never
issues the close call, and teardown is left to the with-statement exit
handler, which still runs. -/
theorem c10_close_iff_full_success (cli : List String)
    (envv : List (String × String)) (w : World) (fs : FS) :
    (Ev.closeBrowser ∈ (run w fs).trace ↔ (run w fs).err = none) ∧
    ((run w fs).err.isSome = true →
      Ev.closeBrowser ∉ (run w fs).trace ∧
        Ev.stopPlaywright ∈ (scriptMain cli envv w fs).calls) := by
  have hmem : Ev.stopPlaywright ∈ (scriptMain cli envv w fs).calls := by
    simp [scriptMain]
  have hiff : Ev.closeBrowser ∈ (run w fs).trace ↔ (run w fs).err = none := by
    unfold run
    split
    · simp
    split
    · simp
    split
    · simp
    split
    · simp
    split
    · simp
    split
    · simp
    split
    · simp
    · simp
  refine ⟨hiff, fun he => ⟨fun hm => ?_, hmem⟩⟩
  rw [hiff.mp hm] at he
  exact absurd he (by decide)

/-- Witness for C10: the close call is issued in a concrete fully
successful run and absent from a concrete failing one, whose teardown still
stops the driver. -/
theorem c10_witness :
    Ev.closeBrowser ∈ (run okWorld []).trace ∧
    (Ev.closeBrowser ∉ (run downWorld []).trace ∧
      Ev.stopPlaywright ∈ (scriptMain [] [] downWorld []).calls) :=
  ⟨(c10_close_iff_full_success [] [] okWorld []).1.mpr (by decide),
   (c10_close_iff_full_success [] [] downWorld []).2 (by decide)⟩

end VerifyTranscription
